import Mathlib

/-!
Verification development for the `mix_last` LED/ADC multiplexing controller
(`ledController.cpp`, `sistem.h`).

The shallow embedding models:
- physical digital pins as a level map `Nat → Bool` (`true` = HIGH) plus an
  output-mode map `Nat → Bool` (`true` = configured as OUTPUT);
- the `ledController` static data: `pinNos : Fin 5 → Nat`,
  `toggleFlag : Fin 5 → Bool`, and the `leds[4].counter` failure counter
  (a C++ `int`, embedded as `Int`);
- each member function as a pure state transformer that also returns the
  list of `digitalWrite` events it performed, so that "performs no pin
  write" and "pin transition" properties are expressible;
- the `ChannelState` enum and `sistem` aggregate from `sistem.h`;
- the channel sequencer / orchestrator transition logic, which the
  repository only scaffolds, modelled from the spec where a claim needs it.
-/

/-- The `ChannelState` enum of `sistem.h`, in declaration order, so that the
underlying C++ enumerator values are `CHANNEL_IDLE = 0`, `LED_ON = 1`,
`DELAY_COUNTING = 2`, `ADC_READING_PHASE = 3`, `CYCLE_COMPLETE = 4`. -/
inductive ChannelState where
  | CHANNEL_IDLE
  | LED_ON
  | DELAY_COUNTING
  | ADC_READING_PHASE
  | CYCLE_COMPLETE
deriving DecidableEq, Repr

/-- The `ChannelState` enumerator holding a given underlying C++ integer
value (declaration order starting at 0). -/
def ChannelState.ofValue : Nat → ChannelState
  | 0 => .CHANNEL_IDLE
  | 1 => .LED_ON
  | 2 => .DELAY_COUNTING
  | 3 => .ADC_READING_PHASE
  | _ => .CYCLE_COMPLETE

/-- The `prc` struct of `sistem.h`: which of the three phases of the current
cycle has completed. -/
structure prc where
  led : Bool
  delay : Bool
  adc_read : Bool
deriving DecidableEq

/-- The `sistem` struct of `sistem.h`.  The `ads1115 myAds` member is an
external-collaborator handle (its type lives outside this repository) and
carries no data relevant to any claim, so it is omitted from the embedding. -/
structure sistem where
  SisteminAdi : String
  versiyon : String
  channelState : Fin 4 → ChannelState
  process : Fin 4 → prc
  process_itr : Int := 0
  process_pos : Int := 0
  state : Bool

/-- The Arduino `HIGH` output level, embedded as `true`. -/
def HIGH : Bool := true

/-- The Arduino `LOW` output level, embedded as `false`. -/
def LOW : Bool := false

/-- The Arduino `OUTPUT` pin mode, embedded as `true` in the
"is configured as output" map. -/
def OUTPUT : Bool := true

/-- A single `digitalWrite(pin, level)` event. -/
abbrev WriteEv := Nat × Bool

namespace ledController

/-- `const int ledController::pinNos[5] = {4, 5, 6, 7, 22};` -/
def pinNos : Fin 5 → Nat := ![4, 5, 6, 7, 22]

/-- The mutable state touched by `ledController`'s member functions:
the physical pin levels and modes, the `toggleFlag[5]` array, and the
`leds[4].counter` failure counter read by `adsBaglanmadiLedBildir`. -/
structure LCState where
  pinLevel : Nat → Bool
  pinIsOutputMode : Nat → Bool
  toggleFlag : Fin 5 → Bool
  counter4 : Int

/-- `toggleFlag`'s static initializer:
`volatile bool ledController::toggleFlag[5] = {false, false, false, false, false};` -/
def toggleFlagInit : Fin 5 → Bool := fun _ => false

/-- `digitalWrite(pin, level)`: sets the pin's level and records the write
event. -/
def digitalWrite (s : LCState) (pin : Nat) (level : Bool) :
    LCState × List WriteEv :=
  ({ s with pinLevel := Function.update s.pinLevel pin level }, [(pin, level)])

/-- `pinMode(pin, mode)`: records the pin's configured mode. -/
def pinMode (s : LCState) (pin : Nat) (mode : Bool) : LCState :=
  { s with pinIsOutputMode := Function.update s.pinIsOutputMode pin mode }

/-- `ledController::update(int i)`:
`if (toggleFlag[i]) digitalWrite(pinNos[i], HIGH); else digitalWrite(pinNos[i], LOW);` -/
def update (i : Fin 5) (s : LCState) : LCState × List WriteEv :=
  if s.toggleFlag i then digitalWrite s (pinNos i) HIGH
  else digitalWrite s (pinNos i) LOW

/-- `ledController::adsBaglanmadiLedBildir()`:
`if (leds[4].counter == 4) { digitalWrite(22, LOW); leds[4].counter = 0; }` -/
def adsBaglanmadiLedBildir (s : LCState) : LCState × List WriteEv :=
  if s.counter4 = 4 then
    let r := digitalWrite s 22 LOW
    ({ r.1 with counter4 := 0 }, r.2)
  else (s, [])

/-- `ledController::begin()`: for `i = 0..4`,
`pinMode(pinNos[i], OUTPUT); digitalWrite(pinNos[i], LOW);`. -/
def begin (s : LCState) : LCState × List WriteEv :=
  (List.finRange 5).foldl
    (fun acc i =>
      let s1 := pinMode acc.1 (pinNos i) OUTPUT
      let r := digitalWrite s1 (pinNos i) LOW
      (r.1, acc.2 ++ r.2))
    (s, [])

/-- A concrete `LCState` used by witness theorems. -/
def sampleState : LCState :=
  { pinLevel := fun _ => false
    pinIsOutputMode := fun _ => false
    toggleFlag := fun _ => false
    counter4 := 0 }

end ledController

/-- Modelled from the spec: the global `sistem mysistem` aggregate is declared
`extern` in `ledController.cpp` but its defining translation unit is not in the
repository.  The spec states it is created once at startup; a namespace-scope
C++ object of this aggregate type is zero-initialized, so each
`channelState[i]` holds the enum value 0 and `process_itr`/`process_pos` take
their member initializers 0. -/
def mysistem : sistem :=
  { SisteminAdi := ""
    versiyon := ""
    channelState := fun _ => ChannelState.ofValue 0
    process := fun _ => ⟨false, false, false⟩
    process_itr := 0
    process_pos := 0
    state := false }

/-- Modelled from the spec: the inputs observed by one non-blocking tick of the
channel sequencer — whether the active phase's configured duration has elapsed,
and whether the configured number of ADC samples has been collected.  The
repository only scaffolds the sequencer (no transition code exists under the
sources), so the tick is modelled from spec sections 4.1 and 4.2. -/
structure TickObs where
  elapsed : Bool
  samplesDone : Bool
deriving DecidableEq

/-- Modelled from the spec: the orchestrator-owned state — the four channel
state machines, the shared per-channel LED flags, the sequencer cursor
`process_pos` and the completed-cycle count `process_itr`. -/
structure OrchState where
  channelState : Fin 4 → ChannelState
  ledFlag : Fin 4 → Bool
  process_pos : Fin 4
  process_itr : Nat

/-- Modelled from the spec: one non-blocking `tick()` of the Acquisition
Orchestrator (spec sections 4.1 and 4.2).  It advances exactly the channel at
`process_pos`: selecting an idle channel raises its LED flag and enters
`LED_ON`; the flag is lowered on the `LED_ON → DELAY_COUNTING` transition;
after the settle delay the channel enters `ADC_READING_PHASE`; once the
configured samples are collected it reaches `CYCLE_COMPLETE`, whereupon the
orchestrator returns it to `CHANNEL_IDLE`, increments `process_itr`, advances
`process_pos = (process_pos + 1) mod 4` and starts the next channel in
`LED_ON` (the direct-to-`LED_ON` policy of spec section 4.2). -/
def orchTick (s : OrchState) (o : TickObs) : OrchState :=
  match s.channelState s.process_pos with
  | ChannelState.CHANNEL_IDLE =>
      { s with
        channelState :=
          Function.update s.channelState s.process_pos ChannelState.LED_ON
        ledFlag := Function.update s.ledFlag s.process_pos true }
  | ChannelState.LED_ON =>
      if o.elapsed then
        { s with
          channelState :=
            Function.update s.channelState s.process_pos
              ChannelState.DELAY_COUNTING
          ledFlag := Function.update s.ledFlag s.process_pos false }
      else s
  | ChannelState.DELAY_COUNTING =>
      if o.elapsed then
        { s with
          channelState :=
            Function.update s.channelState s.process_pos
              ChannelState.ADC_READING_PHASE }
      else s
  | ChannelState.ADC_READING_PHASE =>
      if o.samplesDone then
        { s with
          channelState :=
            Function.update s.channelState s.process_pos
              ChannelState.CYCLE_COMPLETE }
      else s
  | ChannelState.CYCLE_COMPLETE =>
      { s with
        channelState :=
          Function.update
            (Function.update s.channelState s.process_pos
              ChannelState.CHANNEL_IDLE)
            (s.process_pos + 1) ChannelState.LED_ON
        ledFlag := Function.update s.ledFlag (s.process_pos + 1) true
        process_pos := s.process_pos + 1
        process_itr := s.process_itr + 1 }

/-- Modelled from the spec: the startup state — every channel constructed in
`CHANNEL_IDLE`, every LED flag false (matching `toggleFlag`'s initializer),
cursor at channel 0, no completed cycles. -/
def orchInit : OrchState :=
  { channelState := fun _ => ChannelState.CHANNEL_IDLE
    ledFlag := fun _ => false
    process_pos := 0
    process_itr := 0 }

/-- Runs the orchestrator from startup over a list of tick observations; the
reachable states are exactly the results of `orchRun` over all such lists. -/
def orchRun (os : List TickObs) : OrchState := os.foldl orchTick orchInit

/-- The ADC mutual-exclusion property: any channel in `ADC_READING_PHASE` is
the channel currently being serviced. -/
def AdcMutex (s : OrchState) : Prop :=
  ∀ i : Fin 4,
    s.channelState i = ChannelState.ADC_READING_PHASE → i = s.process_pos

/-- The LED-flag coupling property: a channel's shared LED flag is raised
exactly while that channel is in `LED_ON`. -/
def FlagInv (s : OrchState) : Prop :=
  ∀ i : Fin 4, s.ledFlag i = true ↔ s.channelState i = ChannelState.LED_ON

open ledController

/-- C2: for every LED index `i`, after `update(i)` the level of pin
`pinNos[i]` is `HIGH` when `toggleFlag[i]` is true and `LOW` when it is
false. -/
theorem C2_update_drives_pin (s : LCState) (i : Fin 5) :
    (ledController.update i s).1.pinLevel (pinNos i) =
      if s.toggleFlag i then HIGH else LOW := by
  unfold ledController.update digitalWrite
  by_cases h : s.toggleFlag i <;> simp [h]

/-- C3: when the `leds[4].counter` failure counter equals the threshold 4, a
call to `adsBaglanmadiLedBildir` drives pin 22 `LOW` (its one write event) and
resets the counter to 0. -/
theorem C3_threshold_clears_indicator (s : LCState) (h : s.counter4 = 4) :
    (adsBaglanmadiLedBildir s).1.pinLevel 22 = LOW ∧
      (adsBaglanmadiLedBildir s).1.counter4 = 0 ∧
      (adsBaglanmadiLedBildir s).2 = [(22, LOW)] := by
  simp [adsBaglanmadiLedBildir, digitalWrite, h]

/-- Witness for C3 at a concrete state whose counter is 4. -/
theorem C3_threshold_clears_indicator_witness :
    ({ sampleState with counter4 := 4 } : LCState).counter4 = 4 ∧
      ((adsBaglanmadiLedBildir { sampleState with counter4 := 4 }).1.pinLevel
            22 = LOW ∧
        (adsBaglanmadiLedBildir
              { sampleState with counter4 := 4 }).1.counter4 = 0 ∧
        (adsBaglanmadiLedBildir { sampleState with counter4 := 4 }).2 =
          [(22, LOW)]) :=
  ⟨rfl, C3_threshold_clears_indicator { sampleState with counter4 := 4 } rfl⟩

/-- C4: the triggering call at counter 4 writes the indicator and resets the
counter to 0, and every further call made while the counter is not 4 performs
no pin write at all. -/
theorem C4_triggers_once_until_rearmed (s : LCState) (h : s.counter4 = 4)
    (ts : List LCState) (hts : ∀ t ∈ ts, t.counter4 ≠ 4) :
    (adsBaglanmadiLedBildir s).1.counter4 = 0 ∧
      (adsBaglanmadiLedBildir s).2 = [(22, LOW)] ∧
      ∀ t ∈ ts, (adsBaglanmadiLedBildir t).2 = [] := by
  refine ⟨by simp [adsBaglanmadiLedBildir, digitalWrite, h],
    by simp [adsBaglanmadiLedBildir, digitalWrite, h], ?_⟩
  intro t ht
  simp [adsBaglanmadiLedBildir, hts t ht]

/-- Witness for C4: a triggering state with counter 4 followed by one later
call at counter 0. -/
theorem C4_triggers_once_until_rearmed_witness :
    ({ sampleState with counter4 := 4 } : LCState).counter4 = 4 ∧
      (∀ t ∈ [sampleState], t.counter4 ≠ (4 : Int)) ∧
      ((adsBaglanmadiLedBildir { sampleState with counter4 := 4 }).1.counter4 =
          0 ∧
        (adsBaglanmadiLedBildir { sampleState with counter4 := 4 }).2 =
          [(22, LOW)] ∧
        ∀ t ∈ [sampleState], (adsBaglanmadiLedBildir t).2 = []) :=
  ⟨rfl,
    fun t ht => by rw [List.mem_singleton] at ht; subst ht; decide,
    C4_triggers_once_until_rearmed { sampleState with counter4 := 4 } rfl
      [sampleState]
      (fun t ht => by rw [List.mem_singleton] at ht; subst ht; decide)⟩

/-- C6: `update(i)` is idempotent — a second call with the flag unchanged
yields the same state, and every write it performs re-writes the level the
pin already holds, so no additional pin transition occurs. -/
theorem C6_update_idempotent (s : LCState) (i : Fin 5) :
    (ledController.update i (ledController.update i s).1).1 =
        (ledController.update i s).1 ∧
      ((ledController.update i (ledController.update i s).1).2.all
          fun w => ((ledController.update i s).1.pinLevel w.1 == w.2)) =
        true := by
  unfold ledController.update digitalWrite
  by_cases h : s.toggleFlag i <;> simp [h, Function.update_idem, HIGH, LOW]

/-- C7: the startup `sistem` aggregate has every channel in `CHANNEL_IDLE`
(the enum value 0 installed by zero-initialization). -/
theorem C7_channels_start_idle :
    ∀ i : Fin 4, mysistem.channelState i = ChannelState.CHANNEL_IDLE :=
  fun _ => rfl

/-- C8: `update(i)` touches nothing but pin `pinNos[i]`: the flags, the
counter, the pin modes and every other pin's level are unchanged, and the
five `pinNos` values are pairwise distinct. -/
theorem C8_update_frame (s : LCState) (i : Fin 5) :
    (ledController.update i s).1.toggleFlag = s.toggleFlag ∧
      (ledController.update i s).1.counter4 = s.counter4 ∧
      (ledController.update i s).1.pinIsOutputMode = s.pinIsOutputMode ∧
      (∀ p : Nat,
        p ≠ pinNos i → (ledController.update i s).1.pinLevel p = s.pinLevel p) ∧
      ∀ a b : Fin 5, pinNos a = pinNos b → a = b := by
  unfold ledController.update digitalWrite
  by_cases h : s.toggleFlag i <;>
    exact ⟨by simp [h], by simp [h], by simp [h],
      fun p hp => by simp [h, Function.update_noteq hp], by decide⟩

/-- Witness for C8: updating LED 0 leaves an unrelated pin's level alone. -/
theorem C8_update_frame_witness :
    (9 : Nat) ≠ pinNos 0 ∧
      (ledController.update 0 sampleState).1.pinLevel 9 =
        sampleState.pinLevel 9 :=
  ⟨by decide, (C8_update_frame sampleState 0).2.2.2.1 9 (by decide)⟩

/-- C9: starting from the initializer flags (all false), `begin()` configures
all five pins as outputs and drives them `LOW`, leaves every flag false, and
an immediately following `update(i)` changes no pin level. -/
theorem C9_begin_initializes (s : LCState)
    (h : ∀ i : Fin 5, s.toggleFlag i = false) :
    (∀ i : Fin 5,
        (ledController.begin s).1.pinIsOutputMode (pinNos i) = true) ∧
      (∀ i : Fin 5, (ledController.begin s).1.pinLevel (pinNos i) = LOW) ∧
      (∀ i : Fin 5, (ledController.begin s).1.toggleFlag i = false) ∧
      ∀ i : Fin 5,
        (ledController.update i (ledController.begin s).1).1.pinLevel =
          (ledController.begin s).1.pinLevel := by
  refine ⟨?_, ?_, ?_, ?_⟩
  · intro i; fin_cases i <;> rfl
  · intro i; fin_cases i <;> rfl
  · intro i; exact h i
  · intro i
    have hflag : (ledController.begin s).1.toggleFlag i = false := h i
    have hlev : (ledController.begin s).1.pinLevel (pinNos i) = false := by
      fin_cases i <;> rfl
    unfold ledController.update digitalWrite
    simp only [hflag, Bool.false_eq_true, if_false]
    exact Function.update_eq_self_iff.mpr hlev.symm

/-- Witness for C9 at the concrete initializer state. -/
theorem C9_begin_initializes_witness :
    (∀ i : Fin 5, sampleState.toggleFlag i = false) ∧
      ((∀ i : Fin 5,
          (ledController.begin sampleState).1.pinIsOutputMode (pinNos i) =
            true) ∧
        (∀ i : Fin 5,
          (ledController.begin sampleState).1.pinLevel (pinNos i) = LOW) ∧
        (∀ i : Fin 5,
          (ledController.begin sampleState).1.toggleFlag i = false) ∧
        ∀ i : Fin 5,
          (ledController.update i
                (ledController.begin sampleState).1).1.pinLevel =
            (ledController.begin sampleState).1.pinLevel) :=
  ⟨by decide, C9_begin_initializes sampleState (by decide)⟩

/-- C10: whenever the counter differs from 4 — below or above the threshold —
`adsBaglanmadiLedBildir` is a no-op: no pin write, state unchanged. -/
theorem C10_off_threshold_no_op (s : LCState) (h : s.counter4 ≠ 4) :
    adsBaglanmadiLedBildir s = (s, []) := by
  simp [adsBaglanmadiLedBildir, h]

/-- Witness for C10 at a counter that overshot the threshold. -/
theorem C10_off_threshold_no_op_witness :
    ({ sampleState with counter4 := 7 } : LCState).counter4 ≠ 4 ∧
      adsBaglanmadiLedBildir { sampleState with counter4 := 7 } =
        ({ sampleState with counter4 := 7 }, []) :=
  ⟨by decide, C10_off_threshold_no_op { sampleState with counter4 := 7 }
    (by decide)⟩

/-- One orchestrator tick preserves the ADC mutual-exclusion property. -/
theorem adcMutex_tick (s : OrchState) (o : TickObs) (h : AdcMutex s) :
    AdcMutex (orchTick s o) := by
  intro i hi
  unfold orchTick at hi ⊢
  rcases hc : s.channelState s.process_pos with _ | _ | _ | _ | _ <;>
    simp only [hc] at hi ⊢
  · simp only [Function.update_apply] at hi
    rcases eq_or_ne i s.process_pos with rfl | hip
    · rfl
    · rw [if_neg hip] at hi
      exact absurd (h i hi) hip
  · cases he : o.elapsed
    · rw [if_neg (by simp [he])] at hi ⊢
      exact h i hi
    · rw [if_pos (by simp [he])] at hi ⊢
      simp only [Function.update_apply] at hi
      rcases eq_or_ne i s.process_pos with rfl | hip
      · rw [if_pos rfl] at hi
      · rw [if_neg hip] at hi
        exact absurd (h i hi) hip
  · cases he : o.elapsed
    · rw [if_neg (by simp [he])] at hi ⊢
      exact h i hi
    · rw [if_pos (by simp [he])] at hi ⊢
      simp only [Function.update_apply] at hi
      rcases eq_or_ne i s.process_pos with rfl | hip
      · rfl
      · rw [if_neg hip] at hi
        exact absurd (h i hi) hip
  · cases he : o.samplesDone
    · rw [if_neg (by simp [he])] at hi ⊢
      exact h i hi
    · rw [if_pos (by simp [he])] at hi ⊢
      simp only [Function.update_apply] at hi
      rcases eq_or_ne i s.process_pos with rfl | hip
      · rw [if_pos rfl] at hi
      · rw [if_neg hip] at hi
        exact absurd (h i hi) hip
  · simp only [Function.update_apply] at hi
    rcases eq_or_ne i (s.process_pos + 1) with rfl | hiq
    · rfl
    · rw [if_neg hiq] at hi
      rcases eq_or_ne i s.process_pos with rfl | hip
      · rw [if_pos rfl] at hi
        exact absurd hi (by decide)
      · rw [if_neg hip] at hi
        exact absurd (h i hi) hip

/-- One orchestrator tick preserves the LED-flag coupling property. -/
theorem flagInv_tick (s : OrchState) (o : TickObs) (h : FlagInv s) :
    FlagInv (orchTick s o) := by
  intro i
  unfold orchTick
  rcases hc : s.channelState s.process_pos with _ | _ | _ | _ | _ <;>
    simp only [hc]
  · simp only [Function.update_apply]
    rcases eq_or_ne i s.process_pos with rfl | hip
    · simp
    · rw [if_neg hip, if_neg hip]
      exact h i
  · cases he : o.elapsed
    · rw [if_neg (by simp [he])]
      exact h i
    · rw [if_pos (by simp [he])]
      simp only [Function.update_apply]
      rcases eq_or_ne i s.process_pos with rfl | hip
      · simp
      · rw [if_neg hip, if_neg hip]
        exact h i
  · cases he : o.elapsed
    · rw [if_neg (by simp [he])]
      exact h i
    · rw [if_pos (by simp [he])]
      simp only [Function.update_apply]
      rcases eq_or_ne i s.process_pos with rfl | hip
      · have hf := h s.process_pos
        rw [hc] at hf
        simp only [if_pos rfl]
        simp at hf ⊢
        exact hf
      · rw [if_neg hip]
        exact h i
  · cases he : o.samplesDone
    · rw [if_neg (by simp [he])]
      exact h i
    · rw [if_pos (by simp [he])]
      simp only [Function.update_apply]
      rcases eq_or_ne i s.process_pos with rfl | hip
      · have hf := h s.process_pos
        rw [hc] at hf
        simp only [if_pos rfl]
        simp at hf ⊢
        exact hf
      · rw [if_neg hip]
        exact h i
  · simp only [Function.update_apply]
    rcases eq_or_ne i (s.process_pos + 1) with rfl | hiq
    · simp
    · rw [if_neg hiq, if_neg hiq]
      rcases eq_or_ne i s.process_pos with rfl | hip
      · have hf := h s.process_pos
        rw [hc] at hf
        rw [if_pos rfl]
        simp at hf ⊢
        exact hf
      · rw [if_neg hip]
        exact h i

/-- The ADC mutual-exclusion property holds along any run of ticks. -/
theorem adcMutex_foldl (os : List TickObs) :
    ∀ s : OrchState, AdcMutex s → AdcMutex (os.foldl orchTick s) := by
  induction os with
  | nil => exact fun s h => h
  | cons o os ih => exact fun s h => ih (orchTick s o) (adcMutex_tick s o h)

/-- The LED-flag coupling property holds along any run of ticks. -/
theorem flagInv_foldl (os : List TickObs) :
    ∀ s : OrchState, FlagInv s → FlagInv (os.foldl orchTick s) := by
  induction os with
  | nil => exact fun s h => h
  | cons o os ih => exact fun s h => ih (orchTick s o) (flagInv_tick s o h)

/-- C1: in every reachable state — any run of ticks from startup — at most
one channel is in `ADC_READING_PHASE`: two channels both in that phase are
equal. -/
theorem C1_adc_mutual_exclusion (os : List TickObs) (i j : Fin 4)
    (hi : (orchRun os).channelState i = ChannelState.ADC_READING_PHASE)
    (hj : (orchRun os).channelState j = ChannelState.ADC_READING_PHASE) :
    i = j := by
  have h : AdcMutex (orchRun os) :=
    adcMutex_foldl os orchInit (by intro i hi; simp [orchInit] at hi)
  exact (h i hi).trans (h j hj).symm

/-- Witness for C1: a concrete three-tick run drives channel 0 into
`ADC_READING_PHASE`. -/
theorem C1_adc_mutual_exclusion_witness :
    (orchRun [⟨true, true⟩, ⟨true, true⟩, ⟨true, true⟩]).channelState 0 =
        ChannelState.ADC_READING_PHASE ∧
      (0 : Fin 4) = 0 :=
  ⟨by decide,
    C1_adc_mutual_exclusion [⟨true, true⟩, ⟨true, true⟩, ⟨true, true⟩] 0 0
      (by decide) (by decide)⟩

/-- C5: in every reachable state, channel i's shared LED flag is raised iff
channel i is in `LED_ON` — hence never during `DELAY_COUNTING`,
`ADC_READING_PHASE`, `CYCLE_COMPLETE` or `CHANNEL_IDLE`. -/
theorem C5_ledflag_iff_led_on (os : List TickObs) (i : Fin 4) :
    (orchRun os).ledFlag i = true ↔
      (orchRun os).channelState i = ChannelState.LED_ON := by
  have h : FlagInv (orchRun os) :=
    flagInv_foldl os orchInit (by intro i; simp [orchInit])
  exact h i

/-- Witness for C5: at startup channel 0 is idle, so by the theorem its flag
is not raised. -/
theorem C5_ledflag_iff_led_on_witness : (orchRun []).ledFlag 0 = false := by
  have h := C5_ledflag_iff_led_on [] 0
  revert h
  decide
